import Mathlib

/-!
Verification development for the monitor-system repository
(monitor-system-service): the websocket video control protocol
(src/websocket.rs, handle_video_socket), the camera capture loop
(src/processor/camera_control.rs, CameraServer::start_capture) and the
credential check (src/auth.rs, authenticate_basic), embedded shallowly as
executable Lean definitions with the shared state (viewing_clients,
authenticated_clients, device handle, per-connection flags) made explicit.
-/

namespace MonitorSystem

/-! ### Credential check (src/auth.rs, authenticate_basic)

Strings are modelled as lists of characters.  The base64 decode followed by
UTF-8 validation performed by the external `base64` crate and
`String::from_utf8` is a black-box collaborator, passed in as a `decode`
parameter returning `none` exactly when either step fails. -/

/-- Rust `str::split(':')` specialised to the colon separator, as used by
`authenticate_basic` on the decoded credential string. -/
def splitOnColon : List Char → List (List Char)
  | [] => [[]]
  | c :: cs =>
    if c = ':' then [] :: splitOnColon cs
    else
      match splitOnColon cs with
      | [] => [[c]]
      | p :: ps => (c :: p) :: ps

/-- Embedding of `authenticate_basic` (src/auth.rs lines 5-23): the payload
must start with `"Basic "`, its remainder must decode (base64 + UTF-8, the
external `decode` parameter), the decoded string must split on `:` into
exactly two parts, and those parts must equal `admin` / `password`.
Returns `true` for `Ok(())` and `false` for the `Unauthorized` error. -/
def authenticate_basic (decode : List Char → Option (List Char))
    (auth_str : List Char) : Bool :=
  if "Basic ".data.isPrefixOf auth_str then
    match decode (auth_str.drop 6) with
    | some decoded_str =>
      match splitOnColon decoded_str with
      | [username, password] =>
        username = "admin".data && password = "password".data
      | _ => false
    | none => false
  else false

/-! ### Capture loop (src/processor/camera_control.rs, start_capture)

One iteration of the `while *self.running.borrow()` loop is embedded as a
state transformer; per-iteration environment inputs (the `stop_rx` watch
value, the device read outcome, the reinitialisation outcome, the frame
channel send outcome) are provided explicitly. -/

/-- Outcome of one `cam.read(&mut frame)` call together with the emptiness
of the returned frame. -/
inductive ReadRes
  | okNonEmpty (encodeOk : Bool) (frameData : String)
  | okEmptyFrame
  | okFalse
  | readErr
  deriving DecidableEq, Repr

/-- Outcome of `CameraServer::try_open_camera` when called for
reinitialisation after the failure threshold is reached. -/
inductive ReinitRes
  | reinitOk
  | reinitErr
  deriving DecidableEq, Repr

/-- Environment inputs consumed by one loop iteration. -/
structure LoopInput where
  running : Bool
  stop : Bool
  read : ReadRes
  stopAtThreshold : Bool
  reinit : ReinitRes
  sendOk : Bool
  deriving DecidableEq, Repr

/-- State carried across loop iterations: the `consecutive_failures`
counter, the cumulative number of `try_open_camera` reinitialisation
attempts, the frames published on the `frame_sender` channel (the channel
carries only base64 frame strings), whether the loop has exited, and
whether the device handle is still held. -/
structure LoopSt where
  failures : Nat
  reinitAttempts : Nat
  published : List String
  terminated : Bool
  deviceOpen : Bool
  deriving DecidableEq, Repr

/-- State of the loop right after `try_open_camera` succeeded at the top of
`start_capture`: counter 0, device open, nothing published. -/
def loopInit : LoopSt :=
  { failures := 0, reinitAttempts := 0, published := [],
    terminated := false, deviceOpen := true }

/-- A read outcome counted as a failure by the loop: `Ok(true)` with an
empty frame, `Ok(false)`, or `Err(_)`. -/
def failsRead : ReadRes → Bool
  | .okNonEmpty _ _ => false
  | .okEmptyFrame => true
  | .okFalse => true
  | .readErr => true

/-- One iteration of the `start_capture` read loop (camera_control.rs
lines 77-132): check `running`, check the stop signal, read a frame
(success resets `consecutive_failures` and publishes the encoded frame;
failure or an empty frame increments it), and on reaching
`MAX_FAILURES = 3` re-check the stop signal and attempt exactly one
reinitialisation, resetting the counter on success and breaking out of the
loop on failure.  Loop exit drops the `cam` handle, releasing the
device. -/
def loopIter (inp : LoopInput) (st : LoopSt) : LoopSt :=
  if st.terminated then st
  else if inp.running = false then
    { st with terminated := true, deviceOpen := false }
  else if inp.stop then
    { st with terminated := true, deviceOpen := false }
  else
    let st1 :=
      match inp.read with
      | .okNonEmpty encodeOk frameData =>
        let st0 := { st with failures := 0 }
        if encodeOk then
          if inp.sendOk then { st0 with published := st0.published ++ [frameData] }
          else { st0 with terminated := true, deviceOpen := false }
        else st0
      | .okEmptyFrame => { st with failures := st.failures + 1 }
      | .okFalse => { st with failures := st.failures + 1 }
      | .readErr => { st with failures := st.failures + 1 }
    if st1.terminated then st1
    else if 3 ≤ st1.failures then
      if inp.stopAtThreshold then { st1 with terminated := true, deviceOpen := false }
      else
        match inp.reinit with
        | .reinitOk =>
          { st1 with failures := 0, reinitAttempts := st1.reinitAttempts + 1 }
        | .reinitErr =>
          { st1 with terminated := true, deviceOpen := false,
                     reinitAttempts := st1.reinitAttempts + 1 }
    else st1

/-- Run the capture loop over a list of per-iteration environment inputs. -/
def runLoop (st : LoopSt) : List LoopInput → LoopSt
  | [] => st
  | inp :: rest => runLoop (loopIter inp st) rest

/-! ### Websocket video protocol (src/websocket.rs, handle_video_socket)

The shared `VideoState` (viewing_clients / authenticated_clients hash sets,
the broadcast channel) and the per-connection flags (is_authenticated,
is_viewing) are combined into one explicit system state; the capture task
spawned on `viewing_clients.len() == 1` is folded into the step that spawns
it (device open attempt and its replies), and the running task
`viewing_count == 0` check is folded into the steps that empty the viewing
set (the loop exits and releases the camera).  Replies travel on the
own mpsc channel of the issuing connection and are recorded as
(client id, text) pairs. -/

/-- Per-connection session flags of handle_video_socket: the
`is_authenticated` and `is_viewing` mutexes, plus whether the
receive loop has ended (after `break` or a close/disconnect). -/
structure Session where
  isAuthenticated : Bool
  isViewing : Bool
  closed : Bool
  deriving DecidableEq, Repr

/-- Fresh session at connection accept. -/
def freshSession : Session :=
  { isAuthenticated := false, isViewing := false, closed := false }

/-- Outcome of `videoio::VideoCapture::new(index, io)` followed by
`is_opened()` in the spawned video task. -/
inductive OpenRes
  | opened
  | notOpened
  | createErr
  deriving DecidableEq, Repr

/-- A parsed-or-not inbound text message: whether `authenticate_basic`
accepts it as a credential, and the result of `serde_json::from_str::
<ControlMessage>` (`none` when parsing fails). -/
structure CtrlMsg where
  msgType : String
  action : String
  index : Option Int
  deriving DecidableEq, Repr

/-- An inbound websocket text payload, abstracted to the two attributes the
handler branches on. -/
structure TextMsg where
  authOk : Bool
  parsed : Option CtrlMsg
  deriving DecidableEq, Repr

/-- System state shared through `AppState`/`VideoState` plus all
per-connection sessions: the `viewing_clients` and `authenticated_clients`
sets, the number of currently open camera handles, the cumulative number of
video capture tasks spawned, and the `eyes.status` flag. -/
structure Sys where
  viewing : Finset String
  authed : Finset String
  openHandles : Nat
  tasksSpawned : Nat
  eyesStatus : Bool
  sessions : String → Session

/-- Initial system state: empty sets, no device, fresh sessions. -/
def initSys : Sys :=
  { viewing := ∅, authed := ∅, openHandles := 0, tasksSpawned := 0,
    eyesStatus := false, sessions := fun _ => freshSession }

/-- An event driving the system: a text message arriving on the connection of client `c`
connection (with the environment answer `orr` to a device open attempt,
consulted only when an open is attempted), or the transport of client `c`
disconnecting (stream end or close frame). -/
inductive Event
  | text (c : String) (m : TextMsg) (orr : OpenRes)
  | disconnect (c : String)

/-- Teardown after the receive loop of `handle_video_socket` ends
(websocket.rs lines 341-349): the client is removed from both the
authenticated and viewing sets and its session is closed; if the viewing
set is now empty, the `viewing_count == 0` check of the capture task makes the
read loop exit and release the camera. -/
def cleanup (s : Sys) (c : String) : Sys :=
  let viewing1 := s.viewing.erase c
  { s with authed := s.authed.erase c,
           viewing := viewing1,
           openHandles := if viewing1 = ∅ then 0 else s.openHandles,
           sessions := Function.update s.sessions c
             { s.sessions c with closed := true } }

/-- Processing of one text message by handle_video_socket (websocket.rs
lines 177-331).  Before authentication the payload is only ever fed to
`authenticate_basic`; afterwards it is parsed as a ControlMessage and
dispatched on `action`.  Inserting the client with `viewing_clients.len()
== 1` afterwards spawns the video task (folded in: open attempt, its
replies, handle accounting); `off` removes the client and, when the set
empties, the viewer check of the task stops the stream. -/
def stepText (s : Sys) (c : String) (m : TextMsg) (orr : OpenRes) :
    Sys × List (String × String) :=
  let sess := s.sessions c
  if sess.closed then (s, [])
  else if sess.isAuthenticated = false then
    if m.authOk then
      ({ s with authed := insert c s.authed,
                sessions := Function.update s.sessions c
                  { sess with isAuthenticated := true } },
       [(c, "Authenticated")])
    else
      (cleanup s c, [(c, "Unauthorized")])
  else
    match m.parsed with
    | none => (s, [])
    | some cm =>
      if cm.msgType = "control" then
        if cm.action = "on" then
          match cm.index with
          | some _ =>
            let viewing1 := insert c s.viewing
            let s1 := { s with
              viewing := viewing1,
              sessions := Function.update s.sessions c
                { sess with isViewing := true } }
            if viewing1.card = 1 then
              let s2 := { s1 with tasksSpawned := s1.tasksSpawned + 1 }
              match orr with
              | .opened =>
                ({ s2 with openHandles := s2.openHandles + 1 },
                 [(c, "Video stream started")])
              | .notOpened => (s2, [(c, "Failed to open camera")])
              | .createErr => (s2, [(c, "Failed to create camera")])
            else (s1, [(c, "Joined existing stream")])
          | none => (s, [])
        else if cm.action = "off" then
          let viewing1 := s.viewing.erase c
          let s1 := { s with
            viewing := viewing1,
            sessions := Function.update s.sessions c
              { sess with isViewing := false } }
          if viewing1 = ∅ then
            ({ s1 with eyesStatus := false, openHandles := 0 },
             [(c, "Eyes turned off")])
          else
            (s1, [(c, "Stopped viewing. Other clients are still viewing.")])
        else (s, [(c, "Invalid action")])
      else (s, [])

/-- One event of the combined system. -/
def step (s : Sys) : Event → Sys × List (String × String)
  | .text c m orr => stepText s c m orr
  | .disconnect c =>
    if (s.sessions c).closed then (s, [])
    else (cleanup s c, [])

/-- Run a sequence of events, accumulating all replies. -/
def run (s : Sys) : List Event → Sys × List (String × String)
  | [] => (s, [])
  | e :: evs =>
    let p := step s e
    let q := run p.1 evs
    (q.1, p.2 ++ q.2)

/-! ### Broadcast fan-out filter (src/websocket.rs, sender task) -/

/-- A unit on the broadcast channel: `VideoCommand` from src/trait.rs. -/
inductive VideoCommand
  | frame (data : List Nat)
  | error (msg : String)
  deriving DecidableEq, Repr

/-- The sender task filter on broadcast units (websocket.rs lines
152-157): a unit received from `broadcast_rx` is forwarded to the client
only when both `is_authenticated` and `is_viewing` hold; otherwise it is
skipped with `continue`. -/
def deliverBroadcast (sess : Session) (u : VideoCommand) : Option VideoCommand :=
  if sess.isAuthenticated && sess.isViewing then some u else none

/-! ### Concrete test fixtures -/

/-- A text payload accepted by `authenticate_basic` (and not a parseable
control message), sent by client `c`. -/
def credEvent (c : String) : Event := .text c ⟨true, none⟩ .opened

/-- A `{"type":"control","action":"on","index":i}` message from client `c`,
with the device open outcome chosen by the environment `orr`. -/
def startEvent (c : String) (i : Int) (orr : OpenRes) : Event :=
  .text c ⟨false, some ⟨"control", "on", some i⟩⟩ orr

/-- A `{"type":"control","action":"off"}` message from client `c`. -/
def stopEvent (c : String) : Event :=
  .text c ⟨false, some ⟨"control", "off", none⟩⟩ .opened

/-- A text payload that is neither a valid credential nor parseable as a
ControlMessage, sent by client `c`. -/
def rawEvent (c : String) : Event := .text c ⟨false, none⟩ .opened

/-- A capture-loop iteration whose device read fails, with reinitialisation
outcome `ri` should the failure threshold be reached. -/
def readFailInput (ri : ReinitRes) : LoopInput :=
  { running := true, stop := false, read := .readErr,
    stopAtThreshold := false, reinit := ri, sendOk := true }

/-- The client whose connection an event belongs to. -/
def eventClient : Event → String
  | .text c _ _ => c
  | .disconnect c => c

/-- The event is a `Start` (action "on" with an index) issued by client
`c`. -/
def isStartBy (c : String) : Event → Prop
  | .text c2 m _ =>
    c2 = c ∧ ∃ cm, m.parsed = some cm ∧ cm.msgType = "control" ∧
      cm.action = "on" ∧ ∃ i, cm.index = some i
  | .disconnect _ => False

/-- An event whose device-open outcome, if consulted, is a success. -/
def opensOk : Event → Prop
  | .text _ _ orr => orr = .opened
  | .disconnect _ => True

/-! ### Auxiliary lemmas about splitOnColon -/

/-- Right inverse of `splitOnColon`: re-joining with a colon separator. -/
def joinColon : List (List Char) → List Char
  | [] => []
  | [p] => p
  | p :: q :: ps => p ++ ':' :: joinColon (q :: ps)

theorem splitOnColon_ne_nil (l : List Char) : splitOnColon l ≠ [] := by
  cases l with
  | nil => simp [splitOnColon]
  | cons c cs =>
    simp only [splitOnColon]
    split
    · simp
    · split <;> simp

theorem joinColon_splitOnColon (l : List Char) :
    joinColon (splitOnColon l) = l := by
  induction l with
  | nil => rfl
  | cons c cs ih =>
    simp only [splitOnColon]
    by_cases hc : c = ':'
    · simp only [hc, if_pos rfl]
      obtain ⟨q, ps, hq⟩ := List.exists_cons_of_ne_nil (splitOnColon_ne_nil cs)
      rw [hq]
      rw [hq] at ih
      simp [joinColon, ih]
    · simp only [if_neg hc]
      obtain ⟨q, ps, hq⟩ := List.exists_cons_of_ne_nil (splitOnColon_ne_nil cs)
      rw [hq]
      rw [hq] at ih
      cases ps with
      | nil => simpa [joinColon] using congrArg (c :: ·) ih
      | cons r rs => simpa [joinColon] using congrArg (c :: ·) ih

theorem splitOnColon_length (l : List Char) :
    (splitOnColon l).length = l.count ':' + 1 := by
  induction l with
  | nil => simp [splitOnColon]
  | cons c cs ih =>
    simp only [splitOnColon]
    by_cases hc : c = ':'
    · subst hc
      simp [List.count_cons_self, ih]
    · obtain ⟨q, ps, hq⟩ := List.exists_cons_of_ne_nil (splitOnColon_ne_nil cs)
      rw [if_neg hc, hq]
      rw [hq] at ih
      simp only [List.length_cons] at ih ⊢
      rw [List.count_cons_of_ne (Ne.symm hc)]
      exact ih

/-! ### Branch equations for the websocket step function -/

theorem stepText_closed {s : Sys} {c : String} {m : TextMsg} {orr : OpenRes}
    (hcl : (s.sessions c).closed = true) :
    step s (.text c m orr) = (s, []) := by
  simp [step, stepText, hcl]

theorem step_disconnect_closed {s : Sys} {c : String}
    (hcl : (s.sessions c).closed = true) :
    step s (.disconnect c) = (s, []) := by
  simp [step, hcl]

theorem step_disconnect_open {s : Sys} {c : String}
    (hcl : (s.sessions c).closed = false) :
    step s (.disconnect c) = (cleanup s c, []) := by
  simp [step, hcl]

theorem stepText_auth_ok {s : Sys} {c : String} {m : TextMsg} {orr : OpenRes}
    (hcl : (s.sessions c).closed = false)
    (hau : (s.sessions c).isAuthenticated = false)
    (hok : m.authOk = true) :
    step s (.text c m orr) =
      ({ s with authed := insert c s.authed,
                sessions := Function.update s.sessions c
                  { s.sessions c with isAuthenticated := true } },
       [(c, "Authenticated")]) := by
  simp [step, stepText, hcl, hau, hok]

theorem stepText_auth_fail {s : Sys} {c : String} {m : TextMsg} {orr : OpenRes}
    (hcl : (s.sessions c).closed = false)
    (hau : (s.sessions c).isAuthenticated = false)
    (hok : m.authOk = false) :
    step s (.text c m orr) = (cleanup s c, [(c, "Unauthorized")]) := by
  simp [step, stepText, hcl, hau, hok]

theorem stepText_noparse {s : Sys} {c : String} {m : TextMsg} {orr : OpenRes}
    (hcl : (s.sessions c).closed = false)
    (hau : (s.sessions c).isAuthenticated = true)
    (hp : m.parsed = none) :
    step s (.text c m orr) = (s, []) := by
  simp [step, stepText, hcl, hau, hp]

theorem stepText_nonControl {s : Sys} {c : String} {m : TextMsg}
    {orr : OpenRes} {cm : CtrlMsg}
    (hcl : (s.sessions c).closed = false)
    (hau : (s.sessions c).isAuthenticated = true)
    (hp : m.parsed = some cm) (ht : cm.msgType ≠ "control") :
    step s (.text c m orr) = (s, []) := by
  simp [step, stepText, hcl, hau, hp, ht]

theorem stepText_on_noIndex {s : Sys} {c : String} {m : TextMsg}
    {orr : OpenRes} {cm : CtrlMsg}
    (hcl : (s.sessions c).closed = false)
    (hau : (s.sessions c).isAuthenticated = true)
    (hp : m.parsed = some cm) (ht : cm.msgType = "control")
    (ha : cm.action = "on") (hi : cm.index = none) :
    step s (.text c m orr) = (s, []) := by
  simp [step, stepText, hcl, hau, hp, ht, ha, hi]

theorem stepText_on_idx {s : Sys} {c : String} {m : TextMsg}
    {orr : OpenRes} {cm : CtrlMsg} {i : Int}
    (hcl : (s.sessions c).closed = false)
    (hau : (s.sessions c).isAuthenticated = true)
    (hp : m.parsed = some cm) (ht : cm.msgType = "control")
    (ha : cm.action = "on") (hi : cm.index = some i) :
    step s (.text c m orr) =
      (if (insert c s.viewing).card = 1 then
         match orr with
         | .opened =>
           ({ s with viewing := insert c s.viewing,
                     sessions := Function.update s.sessions c
                       { s.sessions c with isViewing := true },
                     tasksSpawned := s.tasksSpawned + 1,
                     openHandles := s.openHandles + 1 },
            [(c, "Video stream started")])
         | .notOpened =>
           ({ s with viewing := insert c s.viewing,
                     sessions := Function.update s.sessions c
                       { s.sessions c with isViewing := true },
                     tasksSpawned := s.tasksSpawned + 1 },
            [(c, "Failed to open camera")])
         | .createErr =>
           ({ s with viewing := insert c s.viewing,
                     sessions := Function.update s.sessions c
                       { s.sessions c with isViewing := true },
                     tasksSpawned := s.tasksSpawned + 1 },
            [(c, "Failed to create camera")])
       else
         ({ s with viewing := insert c s.viewing,
                   sessions := Function.update s.sessions c
                     { s.sessions c with isViewing := true } },
          [(c, "Joined existing stream")])) := by
  cases orr <;> simp [step, stepText, hcl, hau, hp, ht, ha, hi]

theorem stepText_off {s : Sys} {c : String} {m : TextMsg}
    {orr : OpenRes} {cm : CtrlMsg}
    (hcl : (s.sessions c).closed = false)
    (hau : (s.sessions c).isAuthenticated = true)
    (hp : m.parsed = some cm) (ht : cm.msgType = "control")
    (ha : cm.action = "off") :
    step s (.text c m orr) =
      (if s.viewing.erase c = ∅ then
         ({ s with viewing := s.viewing.erase c,
                   sessions := Function.update s.sessions c
                     { s.sessions c with isViewing := false },
                   eyesStatus := false, openHandles := 0 },
          [(c, "Eyes turned off")])
       else
         ({ s with viewing := s.viewing.erase c,
                   sessions := Function.update s.sessions c
                     { s.sessions c with isViewing := false } },
          [(c, "Stopped viewing. Other clients are still viewing.")])) := by
  have hon : cm.action ≠ "on" := by simp [ha]
  simp [step, stepText, hcl, hau, hp, ht, ha, hon]

theorem stepText_invalid {s : Sys} {c : String} {m : TextMsg}
    {orr : OpenRes} {cm : CtrlMsg}
    (hcl : (s.sessions c).closed = false)
    (hau : (s.sessions c).isAuthenticated = true)
    (hp : m.parsed = some cm) (ht : cm.msgType = "control")
    (hon : cm.action ≠ "on") (hoff : cm.action ≠ "off") :
    step s (.text c m orr) = (s, [(c, "Invalid action")]) := by
  simp [step, stepText, hcl, hau, hp, ht, hon, hoff]

/-! ### Preservation lemmas -/

theorem step_preserves_notViewing (s : Sys) (c : String) (e : Event)
    (hv : (s.sessions c).isViewing = false) (hne : ¬ isStartBy c e) :
    (((step s e).1).sessions c).isViewing = false := by
  cases e with
  | disconnect c2 =>
    cases hcl : (s.sessions c2).closed with
    | true => rw [step_disconnect_closed hcl]; exact hv
    | false =>
      rw [step_disconnect_open hcl]
      by_cases hcc : c = c2
      · subst hcc; simp [cleanup, Function.update_same, hv]
      · simp [cleanup, Function.update_noteq hcc, hv]
  | text c2 m orr =>
    cases hcl : (s.sessions c2).closed with
    | true => rw [stepText_closed hcl]; exact hv
    | false =>
      cases hau : (s.sessions c2).isAuthenticated with
      | false =>
        cases hok : m.authOk with
        | true =>
          rw [stepText_auth_ok hcl hau hok]
          by_cases hcc : c = c2
          · subst hcc; simp [Function.update_same, hv]
          · simp [Function.update_noteq hcc, hv]
        | false =>
          rw [stepText_auth_fail hcl hau hok]
          by_cases hcc : c = c2
          · subst hcc; simp [cleanup, Function.update_same, hv]
          · simp [cleanup, Function.update_noteq hcc, hv]
      | true =>
        cases hp : m.parsed with
        | none => rw [stepText_noparse hcl hau hp]; exact hv
        | some cm =>
          by_cases ht : cm.msgType = "control"
          · by_cases han : cm.action = "on"
            · cases hi : cm.index with
              | none => rw [stepText_on_noIndex hcl hau hp ht han hi]; exact hv
              | some i =>
                by_cases hcc : c2 = c
                · exact absurd ⟨hcc, cm, hp, ht, han, i, hi⟩ hne
                · rw [stepText_on_idx hcl hau hp ht han hi]
                  have hcc2 : c ≠ c2 := fun h => hcc h.symm
                  cases orr <;>
                    by_cases hcard : (insert c2 s.viewing).card = 1 <;>
                      simp [hcard, Function.update_noteq hcc2, hv]
            · by_cases hoff : cm.action = "off"
              · rw [stepText_off hcl hau hp ht hoff]
                by_cases hcc : c = c2
                · subst hcc
                  by_cases he : s.viewing.erase c = ∅ <;>
                    simp [he, Function.update_same]
                · by_cases he : s.viewing.erase c2 = ∅ <;>
                    simp [he, Function.update_noteq hcc, hv]
              · rw [stepText_invalid hcl hau hp ht han hoff]; exact hv
          · rw [stepText_nonControl hcl hau hp ht]; exact hv

theorem run_preserves_notViewing (c : String) (evs : List Event) :
    ∀ s : Sys, (s.sessions c).isViewing = false →
    (∀ e ∈ evs, ¬ isStartBy c e) →
    (((run s evs).1).sessions c).isViewing = false := by
  induction evs with
  | nil => intro s hv _; exact hv
  | cons e rest ih =>
    intro s hv hno
    simp only [run]
    exact ih (step s e).1
      (step_preserves_notViewing s c e hv (hno e (by simp)))
      (fun e2 he2 => hno e2 (by simp [he2]))

theorem step_own_closed (s : Sys) (c : String) (e : Event)
    (hc : (s.sessions c).closed = true) (he : eventClient e = c) :
    step s e = (s, []) := by
  cases e with
  | text c2 m orr =>
    simp only [eventClient] at he
    subst he
    exact stepText_closed hc
  | disconnect c2 =>
    simp only [eventClient] at he
    subst he
    exact step_disconnect_closed hc

theorem run_own_closed (c : String) (evs : List Event) :
    ∀ s : Sys, (s.sessions c).closed = true →
    (∀ e ∈ evs, eventClient e = c) →
    run s evs = (s, []) := by
  induction evs with
  | nil => intro s _ _; rfl
  | cons e rest ih =>
    intro s hc hall
    simp only [run, step_own_closed s c e hc (hall e (by simp))]
    simp [ih s hc (fun e2 he2 => hall e2 (by simp [he2]))]

/-! ### Claims -/

theorem step_openIffViewers (s : Sys) (e : Event)
    (hinv : 0 < s.openHandles ↔ s.viewing.Nonempty) (hok : opensOk e) :
    (0 < ((step s e).1).openHandles ↔ ((step s e).1).viewing.Nonempty) := by
  cases e with
  | disconnect c =>
    cases hcl : (s.sessions c).closed with
    | true => rw [step_disconnect_closed hcl]; exact hinv
    | false =>
      rw [step_disconnect_open hcl]
      simp only [cleanup]
      by_cases he : s.viewing.erase c = ∅
      · simp [he]
      · simp only [if_neg he]
        constructor
        · intro _; exact Finset.nonempty_iff_ne_empty.mpr he
        · intro _
          exact hinv.mpr
            ((Finset.nonempty_iff_ne_empty.mpr he).mono
              (Finset.erase_subset c s.viewing))
  | text c m orr =>
    cases hcl : (s.sessions c).closed with
    | true => rw [stepText_closed hcl]; exact hinv
    | false =>
      cases hau : (s.sessions c).isAuthenticated with
      | false =>
        cases hokb : m.authOk with
        | true => rw [stepText_auth_ok hcl hau hokb]; exact hinv
        | false =>
          rw [stepText_auth_fail hcl hau hokb]
          simp only [cleanup]
          by_cases he : s.viewing.erase c = ∅
          · simp [he]
          · simp only [if_neg he]
            constructor
            · intro _; exact Finset.nonempty_iff_ne_empty.mpr he
            · intro _
              exact hinv.mpr
                ((Finset.nonempty_iff_ne_empty.mpr he).mono
                  (Finset.erase_subset c s.viewing))
      | true =>
        cases hp : m.parsed with
        | none => rw [stepText_noparse hcl hau hp]; exact hinv
        | some cm =>
          by_cases ht : cm.msgType = "control"
          · by_cases han : cm.action = "on"
            · cases hi : cm.index with
              | none => rw [stepText_on_noIndex hcl hau hp ht han hi]; exact hinv
              | some i =>
                have horr : orr = .opened := hok
                subst horr
                rw [stepText_on_idx hcl hau hp ht han hi]
                by_cases hcard : (insert c s.viewing).card = 1
                · simp [hcard, Finset.insert_nonempty]
                · have hv : s.viewing.Nonempty := by
                    rcases Finset.eq_empty_or_nonempty s.viewing with h | h
                    · exfalso; apply hcard; rw [h]; simp
                    · exact h
                  simp [hcard, Finset.insert_nonempty, hinv.mpr hv]
            · by_cases hoff : cm.action = "off"
              · rw [stepText_off hcl hau hp ht hoff]
                by_cases he : s.viewing.erase c = ∅
                · simp [he]
                · have hv : s.viewing.Nonempty :=
                    (Finset.nonempty_iff_ne_empty.mpr he).mono
                      (Finset.erase_subset c s.viewing)
                  simp [he, Finset.nonempty_iff_ne_empty.mpr he, hinv.mpr hv]
              · rw [stepText_invalid hcl hau hp ht han hoff]; exact hinv
          · rw [stepText_nonControl hcl hau hp ht]; exact hinv

theorem run_openIffViewers (evs : List Event) :
    ∀ s : Sys, (0 < s.openHandles ↔ s.viewing.Nonempty) →
    (∀ e ∈ evs, opensOk e) →
    (0 < ((run s evs).1).openHandles ↔ ((run s evs).1).viewing.Nonempty) := by
  induction evs with
  | nil => intro s hinv _; exact hinv
  | cons e rest ih =>
    intro s hinv hall
    simp only [run]
    exact ih (step s e).1 (step_openIffViewers s e hinv (hall e (by simp)))
      (fun e2 he2 => hall e2 (by simp [he2]))

theorem start_step_state (s : Sys) (c : String) (i : Int) (orr : OpenRes)
    (hcl : (s.sessions c).closed = false)
    (hau : (s.sessions c).isAuthenticated = true) :
    ((step s (startEvent c i orr)).1).viewing = insert c s.viewing ∧
    (((step s (startEvent c i orr)).1).sessions c).closed = false ∧
    (((step s (startEvent c i orr)).1).sessions c).isAuthenticated = true := by
  have h := @stepText_on_idx s c ⟨false, some ⟨"control", "on", some i⟩⟩ orr
    ⟨"control", "on", some i⟩ i hcl hau rfl rfl rfl rfl
  simp only [startEvent]
  rw [h]
  cases orr <;> by_cases hcard : (insert c s.viewing).card = 1 <;>
    simp [hcard, Function.update_same, hcl, hau]

theorem run_replicate_start (c : String) (i : Int) (orr : OpenRes)
    (n : Nat) :
    ∀ s : Sys, (s.sessions c).closed = false →
    (s.sessions c).isAuthenticated = true →
    ((run s (List.replicate (n + 1) (startEvent c i orr))).1).viewing =
      insert c s.viewing := by
  induction n with
  | zero =>
    intro s hcl hau
    simpa [run] using (start_step_state s c i orr hcl hau).1
  | succ k ih =>
    intro s hcl hau
    have h := start_step_state s c i orr hcl hau
    have hstep : (run s (List.replicate (k + 1 + 1) (startEvent c i orr))).1 =
        (run (step s (startEvent c i orr)).1
          (List.replicate (k + 1) (startEvent c i orr))).1 := by
      rw [List.replicate_succ]
      rfl
    rw [hstep, ih (step s (startEvent c i orr)).1 h.2.1 h.2.2, h.1,
      Finset.insert_idem]

/-- C1 (amended): for every sequence of Start/Stop/disconnect events in
which every attempted device open succeeds, the camera is open if and only
if the set of viewing clients is non-empty — the capture task opens the
device when the insertion leaves the viewer set at exactly one client, and
the read loop terminates and releases the device once the viewer count it
observes is 0. -/
theorem c1_device_open_iff_viewers (evs : List Event)
    (h : ∀ e ∈ evs, opensOk e) :
    (0 < ((run initSys evs).1).openHandles ↔
      ((run initSys evs).1).viewing.Nonempty) := by
  refine run_openIffViewers evs initSys ?_ h
  simp [initSys]

/-- Witness for the amended statement of C1 on a concrete trace. -/
theorem c1_witness :
    (0 < ((run initSys [credEvent "c", startEvent "c" 0 .opened]).1).openHandles ↔
      ((run initSys [credEvent "c", startEvent "c" 0 .opened]).1).viewing.Nonempty) := by
  apply c1_device_open_iff_viewers
  intro e he
  simp only [List.mem_cons, List.not_mem_nil, or_false] at he
  rcases he with rfl | rfl <;> simp [credEvent, startEvent, opensOk]

/-- Counterexample to C1 as stated: a single authenticated client whose
Start fails to open the device is left in the viewing set while no device
is open, so the biconditional fails on this trace. -/
theorem c1_fails_on_open_failure :
    ¬ (0 < ((run initSys [credEvent "c", startEvent "c" 0 .notOpened]).1).openHandles ↔
        ((run initSys [credEvent "c", startEvent "c" 0 .notOpened]).1).viewing.Nonempty) := by
  decide

/-- C2 evaluated at the failing input: after client "c" authenticates and
starts (becoming the sole viewer, with one capture task and one device
handle), a second Start from the same already-viewing client re-enters the
`viewing_clients.len() == 1` branch and spawns a second capture task that
opens a second device handle. -/
theorem c2_sole_viewer_restart :
    (((run initSys [credEvent "c", startEvent "c" 0 .opened]).1).sessions "c").isViewing
      = true ∧
    ((run initSys [credEvent "c", startEvent "c" 0 .opened]).1).viewing = {"c"} ∧
    ((run initSys [credEvent "c", startEvent "c" 0 .opened]).1).tasksSpawned = 1 ∧
    ((run initSys
        [credEvent "c", startEvent "c" 0 .opened, startEvent "c" 0 .opened]).1).tasksSpawned
      = 2 ∧
    ((run initSys
        [credEvent "c", startEvent "c" 0 .opened, startEvent "c" 0 .opened]).1).openHandles
      = 2 := by
  decide

/-- C5 evaluated at the failing input: when the sole Start fails to open
the device, the error reply goes to the requesting client only and no read
loop runs, but the client is NOT removed from the viewing set — the
refcount stays 1 instead of being rolled back to 0. -/
theorem c5_open_failure_no_rollback :
    ((run initSys [credEvent "c", startEvent "c" 9 .notOpened]).1).viewing = {"c"} ∧
    ((run initSys [credEvent "c", startEvent "c" 9 .notOpened]).1).openHandles = 0 ∧
    ((run initSys [credEvent "c", startEvent "c" 9 .notOpened]).1).tasksSpawned = 1 ∧
    (run initSys [credEvent "c", startEvent "c" 9 .notOpened]).2 =
      [("c", "Authenticated"), ("c", "Failed to open camera")] := by
  decide

/-- C4: a broadcast MediaUnit reaches the outbound path of a client only if that
session is authenticated and viewing; an unauthenticated session receives
zero units, and a session that issued Stop receives no further broadcast
units until it issues Start again. -/
theorem c4_delivery_rule :
    (∀ (sess : Session) (u : VideoCommand),
       sess.isAuthenticated = false → deliverBroadcast sess u = none) ∧
    (∀ (sess : Session) (u v : VideoCommand),
       deliverBroadcast sess u = some v →
       sess.isAuthenticated = true ∧ sess.isViewing = true) ∧
    (∀ (s : Sys) (c : String) (m : TextMsg) (orr : OpenRes)
       (evs : List Event) (us : List VideoCommand) (cm : CtrlMsg),
       (s.sessions c).closed = false →
       (s.sessions c).isAuthenticated = true →
       m.parsed = some cm → cm.msgType = "control" → cm.action = "off" →
       (∀ e ∈ evs, ¬ isStartBy c e) →
       us.filterMap
         (deliverBroadcast
           (((run (step s (.text c m orr)).1 evs).1).sessions c)) = []) := by
  refine ⟨?_, ?_, ?_⟩
  · intro sess u h; simp [deliverBroadcast, h]
  · intro sess u v h
    by_cases hb : (sess.isAuthenticated && sess.isViewing) = true
    · exact ⟨(Bool.and_eq_true _ _ |>.mp hb).1, (Bool.and_eq_true _ _ |>.mp hb).2⟩
    · simp [deliverBroadcast, hb] at h
  · intro s c m orr evs us cm hcl hau hp ht ha hno
    have hst := @stepText_off s c m orr cm hcl hau hp ht ha
    have hv : (((step s (.text c m orr)).1).sessions c).isViewing = false := by
      rw [hst]
      by_cases he : s.viewing.erase c = ∅ <;>
        simp [he, Function.update_same]
    have hv2 := run_preserves_notViewing c evs (step s (.text c m orr)).1 hv hno
    rw [List.filterMap_eq_nil_iff]
    intro u _
    simp [deliverBroadcast, hv2]

/-- Witness for C4: after Stop, even an Error unit on the broadcast channel
is filtered out for the stopped client. -/
theorem c4_witness :
    List.filterMap
      (deliverBroadcast
        (((run (step (run initSys [credEvent "c"]).1
             (.text "c" ⟨false, some ⟨"control", "off", none⟩⟩ .opened)).1 []).1).sessions "c"))
      [VideoCommand.error "device lost"] = [] := by
  have h := c4_delivery_rule
  exact h.2.2 (run initSys [credEvent "c"]).1 "c"
    ⟨false, some ⟨"control", "off", none⟩⟩ .opened [] [VideoCommand.error "device lost"]
    ⟨"control", "off", none⟩ (by decide) (by decide) rfl rfl rfl (by simp)

/-- C7: a wrong credential as the first message yields the reply
Unauthorized, closes the connection (after which no further message from
that connection is processed), and every message received before
successful authentication acts only as a credential attempt — it never
changes the viewing set or spawns a capture task, and its only possible
replies are Authenticated or Unauthorized. -/
theorem c7_first_message_gate (s : Sys) (c : String) (m : TextMsg)
    (orr : OpenRes)
    (hcl : (s.sessions c).closed = false)
    (hau : (s.sessions c).isAuthenticated = false) :
    (m.authOk = false →
       (step s (.text c m orr)).2 = [(c, "Unauthorized")] ∧
       (((step s (.text c m orr)).1).sessions c).closed = true ∧
       c ∉ ((step s (.text c m orr)).1).authed ∧
       (∀ evs, (∀ e ∈ evs, eventClient e = c) →
          run (step s (.text c m orr)).1 evs = ((step s (.text c m orr)).1, []))) ∧
    ((step s (.text c m orr)).2 = [(c, "Authenticated")] ∨
     (step s (.text c m orr)).2 = [(c, "Unauthorized")]) ∧
    ((step s (.text c m orr)).1).viewing ⊆ s.viewing ∧
    ((step s (.text c m orr)).1).tasksSpawned = s.tasksSpawned := by
  constructor
  · intro hbad
    rw [stepText_auth_fail hcl hau hbad]
    refine ⟨rfl, ?_, ?_, ?_⟩
    · simp [cleanup, Function.update_same]
    · simp [cleanup, Finset.not_mem_erase]
    · intro evs hall
      exact run_own_closed c evs _ (by simp [cleanup, Function.update_same]) hall
  · cases hok : m.authOk with
    | true =>
      rw [stepText_auth_ok hcl hau hok]
      exact ⟨Or.inl rfl, Finset.Subset.refl _, rfl⟩
    | false =>
      rw [stepText_auth_fail hcl hau hok]
      exact ⟨Or.inr rfl, by simp [cleanup, Finset.erase_subset], rfl⟩

/-- Witness for C7 at a concrete connection and bad first message. -/
theorem c7_witness :
    (step initSys (Event.text "c" ⟨false, none⟩ .opened)).2 = [("c", "Unauthorized")] ∧
    (((step initSys (Event.text "c" ⟨false, none⟩ .opened)).1).sessions "c").closed
      = true := by
  have h := c7_first_message_gate initSys "c" ⟨false, none⟩ .opened rfl rfl
  exact ⟨(h.1 rfl).1, (h.1 rfl).2.1⟩

/-- C8 (amended): for an authenticated idle session, Stop replies with a
status message and leaves the session, the viewing set and the resource
state unchanged with the connection open; an unrecognized action in a
well-formed control message gets the reply Invalid action with the state
unchanged; a malformed or unparseable body is silently ignored — no reply
at all — with the connection open and the state unchanged. -/
theorem c8_idle_stop_malformed (s : Sys) (c : String) (orr : OpenRes)
    (hcl : (s.sessions c).closed = false)
    (hau : (s.sessions c).isAuthenticated = true)
    (hview : (s.sessions c).isViewing = false)
    (hmem : c ∉ s.viewing)
    (hstatus : s.eyesStatus = false)
    (hhandles : s.viewing = ∅ → s.openHandles = 0) :
    (∀ (m : TextMsg) (cm : CtrlMsg),
       m.parsed = some cm → cm.msgType = "control" → cm.action = "off" →
       (step s (.text c m orr)).1 = s ∧
       ((step s (.text c m orr)).2 = [(c, "Eyes turned off")] ∨
        (step s (.text c m orr)).2 =
          [(c, "Stopped viewing. Other clients are still viewing.")])) ∧
    (∀ m : TextMsg, m.parsed = none → step s (.text c m orr) = (s, [])) ∧
    (∀ (m : TextMsg) (cm : CtrlMsg),
       m.parsed = some cm → cm.msgType = "control" →
       cm.action ≠ "on" → cm.action ≠ "off" →
       step s (.text c m orr) = (s, [(c, "Invalid action")])) := by
  have hsess : Function.update s.sessions c
      { s.sessions c with isViewing := false } = s.sessions := by
    have hrec : { s.sessions c with isViewing := false } = s.sessions c := by
      rcases hS : s.sessions c with ⟨a, v, cl⟩
      rw [hS] at hview
      simp only at hview
      simp [hview]
    rw [hrec, Function.update_eq_self]
  have herase : s.viewing.erase c = s.viewing := Finset.erase_eq_of_not_mem hmem
  refine ⟨?_, ?_, ?_⟩
  · intro m cm hp ht ha
    rw [@stepText_off s c m orr cm hcl hau hp ht ha]
    by_cases he : s.viewing.erase c = ∅
    · have hve : s.viewing = ∅ := by rw [← herase]; exact he
      rw [if_pos he]
      refine ⟨?_, Or.inl rfl⟩
      dsimp only
      rw [herase, hsess, ← hstatus, ← hhandles hve]
    · rw [if_neg he]
      refine ⟨?_, Or.inr rfl⟩
      dsimp only
      rw [herase, hsess]
  · intro m hp
    exact stepText_noparse hcl hau hp
  · intro m cm hp ht hon hoff
    exact stepText_invalid hcl hau hp ht hon hoff

/-- Witness for the amended statement of C8: a malformed body from an
authenticated idle client is dropped without any reply or state change. -/
theorem c8_witness :
    step (run initSys [credEvent "c"]).1 (Event.text "c" ⟨false, none⟩ .opened) =
      ((run initSys [credEvent "c"]).1, []) := by
  have h := c8_idle_stop_malformed (run initSys [credEvent "c"]).1 "c" .opened
    (by decide) (by decide) (by decide) (by decide) (by decide)
    (fun _ => by decide)
  exact h.2.1 ⟨false, none⟩ rfl

/-- Counterexample to C8 as stated: a malformed, unparseable body from an
authenticated client produces no reply at all (the only reply in the whole
trace is the earlier Authenticated), contradicting the claimed error
reply. -/
theorem c8_no_reply_for_malformed :
    (run initSys [credEvent "c", rawEvent "c"]).2 = [("c", "Authenticated")] ∧
    (step (run initSys [credEvent "c"]).1 (rawEvent "c")).2 = [] := by
  decide

/-- C9: the set of viewing clients is a set of client ids — a Start inserts
the requesting id, inserting an id that is already a member leaves the set
unchanged, and any number of repeated Start commands from one client
raises the viewer count by at most 1. -/
theorem c9_viewer_set (s : Sys) (c : String) (i : Int) (orr : OpenRes)
    (hcl : (s.sessions c).closed = false)
    (hau : (s.sessions c).isAuthenticated = true) :
    ((step s (startEvent c i orr)).1).viewing = insert c s.viewing ∧
    (c ∈ s.viewing → ((step s (startEvent c i orr)).1).viewing = s.viewing) ∧
    (∀ n : Nat,
       ((run s (List.replicate n (startEvent c i orr))).1).viewing.card ≤
         s.viewing.card + 1) := by
  refine ⟨(start_step_state s c i orr hcl hau).1, ?_, ?_⟩
  · intro hmem
    rw [(start_step_state s c i orr hcl hau).1, Finset.insert_eq_self.mpr hmem]
  · intro n
    cases n with
    | zero => simp [run, Nat.le_succ]
    | succ k =>
      rw [run_replicate_start c i orr k s hcl hau]
      exact Finset.card_insert_le c s.viewing

/-- Witness for C9: three repeated Starts from one client leave exactly one
viewer. -/
theorem c9_witness :
    ((run (run initSys [credEvent "c"]).1
        (List.replicate 3 (startEvent "c" 0 .opened))).1).viewing.card ≤
      ((run initSys [credEvent "c"]).1).viewing.card + 1 := by
  have h := c9_viewer_set (run initSys [credEvent "c"]).1 "c" 0 .opened
    (by decide) (by decide)
  exact h.2.2 3

/-- C10: `authenticate_basic` is a pure function of its input: it accepts a
payload if and only if the payload starts with `"Basic "`, the remainder
decodes (base64 then UTF-8, the external `decode` collaborator) to a string
that splits on `:` into exactly the two parts `admin` and `password`; a
decoded credential containing more than one colon is always rejected, and
any accepted payload decodes exactly to `admin:password`. -/
theorem c10_authenticate_basic_spec
    (decode : List Char → Option (List Char)) (s : List Char) :
    (authenticate_basic decode s = true ↔
      ("Basic ".data.isPrefixOf s = true ∧
       ∃ d, decode (s.drop 6) = some d ∧
            splitOnColon d = ["admin".data, "password".data])) ∧
    (∀ d, decode (s.drop 6) = some d → 2 ≤ d.count ':' →
       authenticate_basic decode s = false) ∧
    (authenticate_basic decode s = true →
       ∃ d, decode (s.drop 6) = some d ∧ d = "admin:password".data) := by
  have hchar : authenticate_basic decode s = true ↔
      ("Basic ".data.isPrefixOf s = true ∧
       ∃ d, decode (s.drop 6) = some d ∧
            splitOnColon d = ["admin".data, "password".data]) := by
    unfold authenticate_basic
    by_cases hpre : "Basic ".data.isPrefixOf s
    · rw [if_pos hpre]
      cases hdec : decode (s.drop 6) with
      | none => simp [hpre, hdec]
      | some d =>
        rcases hsplit : splitOnColon d with _ | ⟨u, _ | ⟨p, _ | ⟨w, ws⟩⟩⟩ <;>
          simp_all [hpre, hdec, hsplit]
    · rw [if_neg hpre]
      simp [hpre]
  refine ⟨hchar, ?_, ?_⟩
  · intro d hd hcount
    rcases hres : authenticate_basic decode s with _ | _
    · rfl
    · exfalso
      obtain ⟨hpre, d2, hd2, hsplit⟩ := hchar.mp hres
      rw [hd] at hd2
      obtain rfl : d = d2 := by injection hd2
      have hlen := splitOnColon_length d
      rw [hsplit] at hlen
      simp only [List.length_cons, List.length_nil] at hlen
      omega
  · intro hres
    obtain ⟨hpre, d, hd, hsplit⟩ := hchar.mp hres
    refine ⟨d, hd, ?_⟩
    have := joinColon_splitOnColon d
    rw [hsplit] at this
    rw [← this]
    rfl

/-- Witness for C10 at a concrete decoder and payload. -/
theorem c10_witness :
    authenticate_basic (fun l => some l) ("Basic admin:password".data) = true := by
  have h := c10_authenticate_basic_spec (fun l => some l)
    ("Basic admin:password".data)
  exact h.1.mpr ⟨by decide, "admin:password".data, by decide, by decide⟩

/-- C3: in the capture read loop, a successful non-empty read resets the
consecutive-failure counter and triggers no reinitialisation; a failed or
empty read increments the counter, and on the third consecutive failure
(counter reaching `MAX_FAILURES = 3`) the loop attempts exactly one
reinitialisation, which on success resets the counter to 0 and leaves the
loop streaming with the device open; with fewer than three consecutive
failures no reinitialisation is attempted.  The counter stays at most 2 at
every loop head. -/
theorem c3_failure_threshold_reinit (st : LoopSt) (inp : LoopInput)
    (hterm : st.terminated = false) (hfail2 : st.failures ≤ 2)
    (hrun : inp.running = true) (hstop : inp.stop = false)
    (hstop2 : inp.stopAtThreshold = false) :
    ((∃ e d, inp.read = .okNonEmpty e d) →
       (loopIter inp st).failures = 0 ∧
       (loopIter inp st).reinitAttempts = st.reinitAttempts) ∧
    (failsRead inp.read = true →
       (st.failures < 2 →
          (loopIter inp st).failures = st.failures + 1 ∧
          (loopIter inp st).reinitAttempts = st.reinitAttempts ∧
          (loopIter inp st).terminated = false ∧
          (loopIter inp st).deviceOpen = st.deviceOpen) ∧
       (st.failures = 2 →
          (loopIter inp st).reinitAttempts = st.reinitAttempts + 1 ∧
          (inp.reinit = .reinitOk →
             (loopIter inp st).failures = 0 ∧
             (loopIter inp st).terminated = false ∧
             (loopIter inp st).deviceOpen = st.deviceOpen))) ∧
    ((loopIter inp st).terminated = false → (loopIter inp st).failures ≤ 2) := by
  obtain ⟨running, stop, read, stopAt, reinit, sendOk⟩ := inp
  simp only at hrun hstop hstop2
  subst hrun hstop hstop2
  cases read with
  | okNonEmpty e d =>
    cases e <;> cases sendOk <;>
      simp [loopIter, hterm, failsRead]
  | okEmptyFrame =>
    rcases Nat.lt_or_ge st.failures 2 with h2 | h2
    · have h3 : ¬ (3 ≤ st.failures + 1) := by omega
      simp [loopIter, hterm, failsRead, h3]
      omega
    · have h2e : st.failures = 2 := le_antisymm hfail2 h2
      have h3 : 3 ≤ st.failures + 1 := by omega
      cases reinit <;> simp [loopIter, hterm, failsRead, h3, h2e]
  | okFalse =>
    rcases Nat.lt_or_ge st.failures 2 with h2 | h2
    · have h3 : ¬ (3 ≤ st.failures + 1) := by omega
      simp [loopIter, hterm, failsRead, h3]
      omega
    · have h2e : st.failures = 2 := le_antisymm hfail2 h2
      have h3 : 3 ≤ st.failures + 1 := by omega
      cases reinit <;> simp [loopIter, hterm, failsRead, h3, h2e]
  | readErr =>
    rcases Nat.lt_or_ge st.failures 2 with h2 | h2
    · have h3 : ¬ (3 ≤ st.failures + 1) := by omega
      simp [loopIter, hterm, failsRead, h3]
      omega
    · have h2e : st.failures = 2 := le_antisymm hfail2 h2
      have h3 : 3 ≤ st.failures + 1 := by omega
      cases reinit <;> simp [loopIter, hterm, failsRead, h3, h2e]

/-- Witness for C3: from a loop state with two consecutive failures, a
third failed read triggers exactly one reinitialisation attempt whose
success resets the counter. -/
theorem c3_witness :
    (loopIter (readFailInput .reinitOk)
        { failures := 2, reinitAttempts := 0, published := [],
          terminated := false, deviceOpen := true }).reinitAttempts = 1 ∧
    (loopIter (readFailInput .reinitOk)
        { failures := 2, reinitAttempts := 0, published := [],
          terminated := false, deviceOpen := true }).failures = 0 := by
  have h := c3_failure_threshold_reinit
    { failures := 2, reinitAttempts := 0, published := [],
      terminated := false, deviceOpen := true }
    (readFailInput .reinitOk) rfl (by decide) rfl rfl rfl
  obtain ⟨hatt, hok⟩ := (h.2.1 rfl).2 rfl
  exact ⟨hatt, (hok rfl).1⟩

/-- C6 (amended): when the reinitialisation attempt after the failure
threshold itself fails, the read loop terminates and the device handle is
released, regardless of the remaining viewer count; nothing is published
on the frame channel for this event — in particular no Error unit reaches
the viewers, since the channel carries only frame data. -/
theorem c6_reinit_failure_terminates (st : LoopSt) (inp : LoopInput)
    (hterm : st.terminated = false) (hrun : inp.running = true)
    (hstop : inp.stop = false) (hstop2 : inp.stopAtThreshold = false)
    (hfail : failsRead inp.read = true) (h2 : st.failures = 2)
    (hre : inp.reinit = .reinitErr) :
    (loopIter inp st).terminated = true ∧
    (loopIter inp st).deviceOpen = false ∧
    (loopIter inp st).published = st.published ∧
    (loopIter inp st).reinitAttempts = st.reinitAttempts + 1 := by
  obtain ⟨running, stop, read, stopAt, reinit, sendOk⟩ := inp
  simp only at hrun hstop hstop2 hre hfail
  subst hrun hstop hstop2 hre
  have h3 : 3 ≤ st.failures + 1 := by omega
  cases read <;> simp_all [loopIter, failsRead, h3]

/-- Witness for the amended statement of C6 at a concrete loop state. -/
theorem c6_witness :
    (loopIter (readFailInput .reinitErr)
        { failures := 2, reinitAttempts := 0, published := [],
          terminated := false, deviceOpen := true }).terminated = true ∧
    (loopIter (readFailInput .reinitErr)
        { failures := 2, reinitAttempts := 0, published := [],
          terminated := false, deviceOpen := true }).deviceOpen = false := by
  have h := c6_reinit_failure_terminates
    { failures := 2, reinitAttempts := 0, published := [],
      terminated := false, deviceOpen := true }
    (readFailInput .reinitErr) rfl rfl rfl rfl rfl rfl rfl
  exact ⟨h.1, h.2.1⟩

/-- Counterexample to C6 as stated: running the loop from its initial state
through three consecutive failed reads with the reinitialisation failing
terminates the loop and releases the device, but publishes nothing at all
to the viewers — no Error unit is delivered, contrary to the claim. -/
theorem c6_no_error_published :
    (runLoop loopInit
      [readFailInput .reinitOk, readFailInput .reinitOk,
       readFailInput .reinitErr]).terminated = true ∧
    (runLoop loopInit
      [readFailInput .reinitOk, readFailInput .reinitOk,
       readFailInput .reinitErr]).deviceOpen = false ∧
    (runLoop loopInit
      [readFailInput .reinitOk, readFailInput .reinitOk,
       readFailInput .reinitErr]).published = [] ∧
    (runLoop loopInit
      [readFailInput .reinitOk, readFailInput .reinitOk,
       readFailInput .reinitErr]).reinitAttempts = 1 := by
  decide

end MonitorSystem
